import Mathlib

/-!
Shallow embedding of the monty repository's workout-ingestion and
metric-derivation pipeline, and proofs settling the frozen claims about it.

Modelling conventions:
* Python/NumPy floats are modelled as exact rationals (`ℚ`); decimal literals
  such as `3.33` or `0.85` denote the exact rationals the source text writes.
* A Python `None` value, a `NaN` produced by pandas, and an absent dictionary
  key are all modelled as `Option.none` (no claim depends on distinguishing
  them).
* `round(x, n)` / `.round(n)` is modelled by `roundTo n`; Python and NumPy
  break exact ties to the even digit while `roundTo` rounds ties up, but no
  claim (and no witness input) depends on tie behaviour.
* Network transports are modelled by the list of page responses a fake API
  would return, exactly as the spec's pagination scenarios describe.
-/

namespace Monty

/-- Rounds a rational to `n` decimal places, modelling Python's `round(x, n)`
and pandas' `.round(n)` (tie behaviour aside, see module header). -/
def roundTo (n : ℕ) (q : ℚ) : ℚ := (round (q * (10 : ℚ) ^ n) : ℤ) / (10 : ℚ) ^ n

/-- Shorthand for rounding to 1 decimal place. -/
def round1 : ℚ → ℚ := roundTo 1

/-- Shorthand for rounding to 2 decimal places. -/
def round2 : ℚ → ℚ := roundTo 2

/-- Shorthand for rounding to 3 decimal places. -/
def round3 : ℚ → ℚ := roundTo 3

/-! ### The static exercise reference tables

`BW_PCT_RAW` transcribes the dictionary of the same name that appears
identically in `crawler1.py` (lines 23–92) and `sl_analyser/pure.py`
(lines 33–102): exercise name → optional bodyweight fraction (`None` = `none`).
-/

/-- Bodyweight-percentage table from `crawler1.py` / `sl_analyser/pure.py`. -/
def BW_PCT_RAW : List (String × Option ℚ) := [
  ("Back Extension", some 0.4),
  ("Balance lunges twist", some 0.6),
  ("Balance squat", some 0.6),
  ("Bench Press", some 0.0),
  ("Cable Overhead Tricep Extension", some 0.0),
  ("Chest Press", some 0.0),
  ("Deadlift", some 0.2),
  ("Decline Sit Up", some 0.3),
  ("Dips", some 1.0),
  ("Dumbbell Bench Press", some 0.0),
  ("Dumbbell Curl", some 0.0),
  ("Dumbbell Finger Curl", some 0.0),
  ("Dumbbell Lunge", some 0.6),
  ("Dumbbell Shoulder Press", some 0.0),
  ("Goblet Squat", some 0.6),
  ("Hack Squat", some 0.6),
  ("Hammer Curl", some 0.0),
  ("Hanging Knee Raise", none),
  ("Hip Thrust", some 0.4),
  ("Incline Bench Press", some 0.0),
  ("Incline Chest Press", some 0.0),
  ("Incline Dumbbell Bench Press", some 0.0),
  ("Kettlebell Deadlift", some 0.2),
  ("Kettlebell High Pull", none),
  ("Kettlebell Swing", none),
  ("Leg Curl", some 0.05),
  ("Leg Extension", some 0.05),
  ("Leg Press", some 0.05),
  ("Lower Back Extension", some 0.3),
  ("Lunge", some 0.6),
  ("Lying Leg Raise", some 0.2),
  ("Lying Leg Curl", some 0.05),
  ("Lying leg curl single leg", some 0.05),
  ("Standing Leg Curl", some 0.05),
  ("Machine Lateral Raise", none),
  ("Machine Calf Raise", some 1),
  ("Military Press", some 0.0),
  ("Neutral grip lat pulldown", some 0.0),
  ("Oblique Side Bends", some 0.3),
  ("Overhead Press", some 0.0),
  ("Pallof Press", none),
  ("Pec fly oblique", none),
  ("Plank", some 1.0),
  ("Plank one leg", some 1.0),
  ("Preacher Curl", some 0.0),
  ("Pull Ups", some 1.0),
  ("Push Ups", some 1.0),
  ("Reverse Grip Lat Pulldown", some 0.0),
  ("Roman Chair Side Bend", some 0.3),
  ("Romanian Deadlift", some 0.2),
  ("STRETCH (tempinai virvute i prieki)", none),
  ("STRETCH - Virvute", none),
  ("Side Plank", some 1.0),
  ("Single Dumbbell Cossack Squat", some 0.6),
  ("Single Leg Press", some 0.05),
  ("Single leg back extension", some 0.4),
  ("Sit Up", some 0.3),
  ("Skull Crusher", some 0.0),
  ("Sled Leg Press", some 0.1),
  ("Smith Machine Single Leg Deadlift", some 0.2),
  ("Smith Machine Incline Close Grip Push Up", some 1),
  ("Smith Machine Squat", some 0.6),
  ("Squat", some 0.6),
  ("Tricep Pushdown", some 0.0),
  ("Nordic Hamstring Curl", none),
  ("One Arm Dumbbell Preacher Curl", some 0.0),
  ("One Arm Incline Dumbbell Lateral Raise", some 0.0),
  ("One leg RDL", some 0.2)]

/-- One entry of `EXERCISE_DATA` in `sl_analyser/variables.py`:
`{"bwp": ..., "eq_w": ...}` (a `None` bwp is `none`; every `eq_w` in the
table is a plain number). -/
structure ExData where
  bwp : Option ℚ
  eq_w : ℚ
deriving DecidableEq

/-- Exercise reference table `EXERCISE_DATA` from `sl_analyser/variables.py`
(lines 84–223), consumed by `sl_analyser/main.py`. -/
def EXERCISE_DATA : List (String × ExData) := [
  ("Back Extension", ⟨some 0.4, 0⟩),
  ("Balance lunges twist", ⟨some 0.6, 0⟩),
  ("Balance squat", ⟨some 0.6, 0⟩),
  ("Bench Press", ⟨some 0.0, 0⟩),
  ("Cable Overhead Tricep Extension", ⟨some 0.0, 0⟩),
  ("Chest Press", ⟨some 0.0, 0⟩),
  ("Deadlift", ⟨some 0.2, 0⟩),
  ("Decline Sit Up", ⟨some 0.3, 0⟩),
  ("Dips", ⟨some 1.0, 0⟩),
  ("Dumbbell Bench Press", ⟨some 0.0, 0⟩),
  ("Dumbbell Curl", ⟨some 0.0, 0⟩),
  ("Dumbbell Finger Curl", ⟨some 0.0, 0⟩),
  ("Dumbbell Lunge", ⟨some 0.6, 0⟩),
  ("Dumbbell Shoulder Press", ⟨some 0.0, 0⟩),
  ("Front lever raise", ⟨some 0.3, 0⟩),
  ("Goblet Squat", ⟨some 0.6, 0⟩),
  ("Hack Squat", ⟨some 0.6, 0⟩),
  ("Hammer Curl", ⟨some 0.0, 0⟩),
  ("Hanging Knee Raise", ⟨none, 0⟩),
  ("Hip Thrust", ⟨some 0.4, 0⟩),
  ("Incline Bench Press", ⟨some 0.0, 0⟩),
  ("Incline Chest Press", ⟨some 0.0, 0⟩),
  ("Incline Dumbbell Bench Press", ⟨some 0.0, 0⟩),
  ("Kettlebell Deadlift", ⟨some 0.2, 0⟩),
  ("Kettlebell High Pull", ⟨none, 0⟩),
  ("Kettlebell Swing", ⟨none, 0⟩),
  ("Leg Curl", ⟨some 0.05, 0⟩),
  ("Leg Extension", ⟨some 0.05, 0⟩),
  ("Leg Press", ⟨some 0.05, 0⟩),
  ("Lower Back Extension", ⟨some 0.3, 0⟩),
  ("Lunge", ⟨some 0.6, 0⟩),
  ("Lying Leg Raise", ⟨some 0.2, 0⟩),
  ("Lying Leg Curl", ⟨some 0.05, 0⟩),
  ("Lying leg curl single leg", ⟨some 0.05, 0⟩),
  ("Standing Leg Curl", ⟨some 0.05, 0⟩),
  ("Machine Lateral Raise", ⟨none, 0⟩),
  ("Machine Calf Raise", ⟨some 1, 0⟩),
  ("Military Press", ⟨some 0.0, 0⟩),
  ("Neutral grip lat pulldown", ⟨some 0.0, 0⟩),
  ("Oblique Side Bends", ⟨some 0.3, 0⟩),
  ("Overhead Press", ⟨some 0.0, 0⟩),
  ("Pallof Press", ⟨none, 0⟩),
  ("Pec fly oblique", ⟨none, 0⟩),
  ("Plank", ⟨some 1.0, 0⟩),
  ("Plank one leg", ⟨some 1.0, 0⟩),
  ("Preacher Curl", ⟨some 0.0, 0⟩),
  ("Pull Ups", ⟨some 1.0, 0⟩),
  ("Push Ups", ⟨some 1.0, 0⟩),
  ("Reverse Grip Lat Pulldown", ⟨some 0.0, 0⟩),
  ("Roman Chair Side Bend", ⟨some 0.3, 0⟩),
  ("Romanian Deadlift", ⟨some 0.2, 0⟩),
  ("STRETCH (tempinai virvute i prieki)", ⟨none, 0⟩),
  ("STRETCH - Virvute", ⟨none, 0⟩),
  ("Side Plank", ⟨some 1.0, 0⟩),
  ("Single Dumbbell Cossack Squat", ⟨some 0.6, 0⟩),
  ("Single Leg Press", ⟨some 0.05, 0⟩),
  ("Single leg back extension", ⟨some 0.4, 0⟩),
  ("Sit Up", ⟨some 0.3, 0⟩),
  ("Skull Crusher", ⟨some 0.0, 0⟩),
  ("Sled Leg Press", ⟨some 0.1, 0⟩),
  ("Smith Machine Single Leg Deadlift", ⟨some 0.2, 0⟩),
  ("Smith Machine Incline Close Grip Push Up", ⟨some 1, 0⟩),
  ("Smith Machine Squat", ⟨some 0.6, 0⟩),
  ("Squat", ⟨some 0.6, 0⟩),
  ("Tricep Pushdown", ⟨some 0.0, 0⟩),
  ("Nordic Hamstring Curl", ⟨none, 0⟩),
  ("One Arm Dumbbell Preacher Curl", ⟨some 0.0, 0⟩),
  ("One Arm Incline Dumbbell Lateral Raise", ⟨some 0.0, 0⟩),
  ("One leg RDL", ⟨some 0.2, 0⟩)]

/-! ### Name normalisation and reference-table lookups

Python's `str.strip()` and `str.lower()` are modelled at the character-list
level (all names involved are ASCII, where the semantics agree).
-/

/-- Drops leading and trailing whitespace from a character list, modelling
Python's `str.strip()`. -/
def stripChars (l : List Char) : List Char :=
  ((l.dropWhile Char.isWhitespace).reverse.dropWhile Char.isWhitespace).reverse

/-- Models Python's `str.strip()`. -/
def strip (s : String) : String := String.mk (stripChars s.data)

/-- Models Python's `str.lower()` (ASCII). -/
def lower (s : String) : String := String.mk (s.data.map Char.toLower)

/-- Embeds `_norm` from `crawler1.py` line 95 / `pure.py` line 187:
`(s or "").strip().lower()`. -/
def norm (s : String) : String := lower (strip s)

/-- Embeds `_BW_KEYMAP = {k.strip().lower(): v for k, v in BW_PCT_RAW.items()}`
(`crawler1.py` line 93 / `pure.py` line 105); no two keys of `BW_PCT_RAW`
collide after normalisation, so first-match lookup equals the Python dict. -/
def BW_KEYMAP : List (String × Option ℚ) :=
  BW_PCT_RAW.map (fun kv => (norm kv.1, kv.2))

/-- Lookup `_BW_KEYMAP.get(_norm(x))` used to map an exercise name to its
reference entry in `crawler1.py` line 271 / `pure.py` line 212.  The outer
`Option` is dictionary presence, the inner one the stored value. -/
def bw_keymap_get (x : String) : Option (Option ℚ) :=
  BW_KEYMAP.lookup (norm x)

/-- Column value `bw_pct` produced by that map call: pandas stores `NaN`
both for an absent key and for a `None` value, so the two option layers are
joined. -/
def bw_pct_of (x : String) : Option ℚ :=
  (bw_keymap_get x).bind id

/-- Embeds the lookup in `sl_analyser/main.py` lines 91–92:
`name = exercise.get("exercise_name", "").strip()` followed by
`EXERCISE_DATA.get(name, {"bwp": 0, "eq_w": 0})`.  Note: it trims but does
not lowercase. -/
def exercise_data_get (name : String) : ExData :=
  (EXERCISE_DATA.lookup (strip name)).getD ⟨some 0, 0⟩

/-! ### The Epley3 formula family (`sl_analyser/main.py` lines 48–79) -/

/-- Value computed inside `epley3_reps` (`main.py` lines 48–59) before the
final `round(reps, 2)`: `none` exactly when the denominator
`3.33 * (w + w_i)` is zero. -/
def epley3_reps_core (w w_rec w_i : ℚ) : Option ℚ :=
  let denom := 3.33 * (w + w_i)
  if denom = 0 then none
  else some ((100 * (w_rec + w_i)) / denom - 29)

/-- Embeds `epley3_reps` from `main.py` lines 48–59: estimated max reps at a
weight given the 1RM and internal load; `None` on a missing argument or a
zero denominator, otherwise rounded to 2 decimals. -/
def epley3_reps (w w_rec w_i : Option ℚ) : Option ℚ :=
  match w, w_rec, w_i with
  | some wv, some wrec, some wiv => (epley3_reps_core wv wrec wiv).map round2
  | _, _, _ => none

/-- Value computed inside `epley3_record` (`main.py` lines 62–69) before the
final `round(..., 2)` (the `ZeroDivisionError` guard is unreachable: the only
division is by the literal 100). -/
def epley3_record_core (w reps w_i : ℚ) : ℚ :=
  (3.33 * (w + w_i) * (reps + 29)) / 100 - w_i

/-- Embeds `epley3_record` from `main.py` lines 62–69: estimated 1RM from
working weight, reps and internal load; `None` on a missing argument,
otherwise rounded to 2 decimals. -/
def epley3_record (w reps w_i : Option ℚ) : Option ℚ :=
  match w, reps, w_i with
  | some wv, some r, some wiv => some (round2 (epley3_record_core wv r wiv))
  | _, _, _ => none

/-- Embeds `est_1rm_epley3` from `pure.py` lines 217–225 (identical to the
copy in `crawler1.py` lines 279–292): `NaN` when reps is missing or
non-positive or the internal weight is missing; a missing external weight is
replaced by `0.0`. -/
def est_1rm_epley3 (reps wi x : Option ℚ) : Option ℚ :=
  match reps with
  | none => none
  | some r =>
    if r ≤ 0 then none
    else
      match wi with
      | none => none
      | some wiv => some (((r + 29.0) * 3.33 * (x.getD 0 + wiv)) / 100.0 - wiv)

/-! ### The `pure.py` data pipeline: payload → flat rows → enriched columns -/

/-- A set dictionary as fetched by `pure.py` (`set.fields`:
weight, reps, notes, rir). -/
structure PSet where
  weight : Option ℚ
  reps : Option ℚ
  rir : Option ℚ
  notes : Option String
deriving DecidableEq

/-- An exercise dictionary as fetched by `pure.py`: a missing or `None`
`sets` value is conflated with the empty list (the source guards with
`ex.get("sets") or []`). -/
structure PEx where
  exercise_name : String
  sets : List PSet
deriving DecidableEq

/-- A workout dictionary as fetched by `pure.py`; `exercises` likewise
conflates missing/`None` with `[]` (`w.get("exercises") or []`). -/
structure PWorkout where
  date : Option String
  bodyweight : Option ℚ
  exercises : List PEx
deriving DecidableEq

/-- The workouts API payload: `payload.get("data", [])`. -/
structure PPayload where
  data : List PWorkout
deriving DecidableEq

/-- One flat row appended by `flatten_workouts` (`pure.py` lines 160–170). -/
structure PRow where
  date : Option String
  bodyweight : Option ℚ
  exercise : String
  weight : Option ℚ
  reps : Option ℚ
  rir : Option ℚ
  notes : Option String
deriving DecidableEq

/-- Row built for one set in `flatten_workouts`. -/
def prow_of_set (w : PWorkout) (ex_name : String) (s : PSet) : PRow :=
  ⟨w.date, w.bodyweight, ex_name, s.weight, s.reps, s.rir, s.notes⟩

/-- Rows contributed by one exercise in `flatten_workouts`'s inner loop. -/
def flatten_rows_of_ex (w : PWorkout) (ex : PEx) : List PRow :=
  ex.sets.map (prow_of_set w ex.exercise_name)

/-- Rows contributed by one workout in `flatten_workouts`'s outer loop. -/
def flatten_rows_of_workout (w : PWorkout) : List PRow :=
  w.exercises.flatMap (flatten_rows_of_ex w)

/-- Embeds `flatten_workouts` from `pure.py` lines 152–171: one row per
(workout, exercise, set) triple, in source order, with no placeholder rows
for empty exercise or set lists. -/
def flatten_workouts (payload : PPayload) : List PRow :=
  payload.data.flatMap flatten_rows_of_workout

/-- Column `internal_weight = df["bodyweight"] * df["bw_pct"]`
(`pure.py` line 215): missing when either factor is missing. -/
def row_internal_weight (r : PRow) : Option ℚ :=
  match r.bodyweight, bw_pct_of r.exercise with
  | some b, some p => some (b * p)
  | _, _ => none

/-- Column `est_1RM` of `add_bw_pct_and_1rm` (`pure.py` lines 227–230):
`est_1rm_epley3(reps, internal_weight, weight)` followed by `.round(1)`
(rounding a missing value leaves it missing). -/
def row_est_1rm (r : PRow) : Option ℚ :=
  (est_1rm_epley3 r.reps (row_internal_weight r) r.weight).map round1

/-! ### The `crawler1.py` row-building loop and pagination -/

/-- A set dictionary as fetched by `crawler1.py` (`set.fields`:
weight, reps, notes, dropset, percentile). -/
structure CSet where
  weight : Option ℚ
  reps : Option ℚ
  notes : Option String
  dropset : Bool
  percentile : Option ℚ
deriving DecidableEq

/-- An exercise dictionary as fetched by `crawler1.py`
(`ex.get("sets") or []` conflates missing/`None` sets with `[]`). -/
structure CEx where
  exercise_name : String
  sets : List CSet
deriving DecidableEq

/-- A workout dictionary as fetched by `crawler1.py`
(`w.get("exercises") or []` likewise). -/
structure CWorkout where
  id : Option ℕ
  date : Option String
  bodyweight : Option ℚ
  exercises : List CEx
deriving DecidableEq

/-- One row appended by the module-level loop in `crawler1.py`
lines 195–248. -/
structure CRow where
  workout_id : Option ℕ
  date : Option String
  bodyweight : Option ℚ
  exercise : String
  weight : Option ℚ
  reps : Option ℚ
  notes : Option String
  dropset : Bool
  percentile : Option ℚ
deriving DecidableEq

/-- Normal row for one set (`crawler1.py` lines 221–234). -/
def crow_of_set (w : CWorkout) (ex_name : String) (s : CSet) : CRow :=
  ⟨w.id, w.date, w.bodyweight, ex_name, s.weight, s.reps, s.notes, s.dropset, s.percentile⟩

/-- Placeholder row for a workout with no exercises
(`crawler1.py` lines 201–215). -/
def crow_empty_workout (w : CWorkout) : CRow :=
  ⟨w.id, w.date, w.bodyweight, "", none, none, some "", false, none⟩

/-- Placeholder row for an exercise with no sets
(`crawler1.py` lines 235–248). -/
def crow_empty_sets (w : CWorkout) (ex_name : String) : CRow :=
  ⟨w.id, w.date, w.bodyweight, ex_name, none, none, some "", false, none⟩

/-- Rows contributed by one exercise: a single placeholder when its set
list is empty, else one row per set (`crawler1.py` lines 217–248). -/
def crawler1_rows_of_ex (w : CWorkout) (ex : CEx) : List CRow :=
  if ex.sets.isEmpty then [crow_empty_sets w ex.exercise_name]
  else ex.sets.map (crow_of_set w ex.exercise_name)

/-- Rows contributed by one workout: a single placeholder when its exercise
list is empty, else the concatenation over its exercises
(`crawler1.py` lines 195–248). -/
def crawler1_rows_of_workout (w : CWorkout) : List CRow :=
  if w.exercises.isEmpty then [crow_empty_workout w]
  else w.exercises.flatMap (crawler1_rows_of_ex w)

/-- Number of API requests issued by the `while True` pagination loop of
`crawler1.py` lines 167–257 against a fake transport that answers the given
pages in order and empty pages thereafter.  Each recursion step is one
request; the loop breaks on an empty page (`if not data: break`, line 192)
and, after processing, on a short page (`if len(data) < limit: break`,
line 256). -/
def crawler1_requests (limit : ℕ) : List (List α) → ℕ
  | [] => 1
  | d :: rest =>
    if d.isEmpty then 1
    else if d.length < limit then 1
    else 1 + crawler1_requests limit rest

/-- Number of API requests issued by the `for _ in range(MAX_PAGES)` loop of
`fetch_workout_data` (`sl_analyser/utils.py` lines 60–88) against the same
fake transport.  The fuel argument is `MAX_PAGES`; the loop breaks only on
an empty page (`if not all_workouts: break`, lines 72–73) — there is no
short-page check. -/
def utils_requests : ℕ → List (List α) → ℕ
  | 0, _ => 0
  | _ + 1, [] => 1
  | fuel + 1, d :: rest =>
    if d.isEmpty then 1
    else 1 + utils_requests fuel rest

/-- One fake page response: either the page's record list or a failure
(network error or non-JSON body). -/
abbrev PageResp (α : Type) := Except Unit (List α)

/-- Accumulating form of the `crawler1.py` pagination loop restricted to
record accumulation: on a page failure the `except` arms (lines 180–185)
break out of the loop keeping everything accumulated so far. -/
def crawler1_fetch_aux (limit : ℕ) (acc : List α) : List (PageResp α) → List α
  | [] => acc
  | .error _ :: _ => acc
  | .ok d :: rest =>
    if d.isEmpty then acc
    else if d.length < limit then acc ++ d
    else crawler1_fetch_aux limit (acc ++ d) rest

/-- Records accumulated by the `crawler1.py` pagination loop
(lines 167–257) run against a fake transport. -/
def crawler1_fetch (limit : ℕ) (pages : List (PageResp α)) : List α :=
  crawler1_fetch_aux limit [] pages

/-- Accumulating form of `fetch_workout_data`'s loop
(`sl_analyser/utils.py` lines 60–88): the page request
`session.get(...).json()` (line 70) is not guarded by any `try/except`, so
a page failure propagates as an exception (`Except.error`), discarding the
accumulated records. -/
def utils_fetch_aux (acc : List α) : ℕ → List (PageResp α) → Except Unit (List α)
  | 0, _ => .ok acc
  | _ + 1, [] => .ok acc
  | _ + 1, .error e :: _ => .error e
  | fuel + 1, .ok d :: rest =>
    if d.isEmpty then .ok acc
    else utils_fetch_aux (acc ++ d) fuel rest

/-- Result of `fetch_workout_data` (`sl_analyser/utils.py` lines 51–91) run
against a fake transport, as seen by its caller: either the accumulated
records or the escaped exception. -/
def utils_fetch (fuel : ℕ) (pages : List (PageResp α)) : Except Unit (List α) :=
  utils_fetch_aux [] fuel pages

/-! ### The `sl_analyser/main.py` enrichment pipeline

Workouts are nested dictionaries; the enrichment stages mutate them in place
adding derived keys.  Derived keys are modelled as `Option` fields that start
out `none` and the in-place mutation as structure update inside `List.map`.
-/

/-- A set dictionary in `main.py`'s pipeline.  `weight` … `distance` are the
fetched fields; `one_rep_max`, `rir` (source key `"RIR"`) and `max_reps` are
the keys the enrichment stages add. -/
structure MSet where
  weight : Option ℚ
  reps : Option ℚ
  notes : Option String
  dropset : Bool
  percentile : Option ℚ
  time : Option ℚ
  distance : Option ℚ
  one_rep_max : Option ℚ := none
  rir : Option ℚ := none
  max_reps : Option ℚ := none
deriving DecidableEq

/-- An exercise dictionary in `main.py`'s pipeline.  `exercise_name` and
`sets` are fetched; the remaining fields are keys added by the enrichment
stages. -/
structure MEx where
  exercise_name : String
  sets : List MSet
  bodyweight_p : Option ℚ := none
  bodyweight_load : Option ℚ := none
  equipment_weight : Option ℚ := none
  internal_load : Option ℚ := none
  one_rep_max : Option ℚ := none
  volume_raw : Option ℚ := none
  volume_relative : Option ℚ := none
  volume_heavy : Option ℚ := none
deriving DecidableEq

/-- A workout dictionary in `main.py`'s pipeline. -/
structure MWorkout where
  date : String
  bodyweight : Option ℚ
  exercises : List MEx
deriving DecidableEq

/-- Body of the per-exercise loop of `enrich_workouts_with_bodyweight_load`
(`main.py` lines 90–101).  `data.get("bwp") or 0.0` coerces a `None`
fraction to `0.0`; every `eq_w` in the table is a number, so
`data.get("eq_w") or 0.0` is the identity on it. -/
def enrich_ex_with_bw_load (bodyweight : ℚ) (ex : MEx) : MEx :=
  let data := exercise_data_get ex.exercise_name
  let bwp := data.bwp.getD 0
  let eq_w := data.eq_w
  let bw_load := round2 (bodyweight * bwp)
  let w_i := bw_load + eq_w
  { ex with
    bodyweight_p := some bwp
    bodyweight_load := some bw_load
    equipment_weight := some eq_w
    internal_load := some (round2 w_i) }

/-- Embeds `enrich_workouts_with_bodyweight_load` (`main.py` lines 86–102);
`workout.get("bodyweight", 0)` defaults a missing bodyweight to `0`. -/
def enrich_workouts_with_bodyweight_load (raw : List MWorkout) : List MWorkout :=
  raw.map fun w =>
    { w with exercises := w.exercises.map (enrich_ex_with_bw_load (w.bodyweight.getD 0)) }

/-- Per-set 1RM value of `enrich_workouts_with_1rm` (`main.py` lines
111–118): the value appended to `one_rms` when computed, `none` otherwise.
Missing weight/reps are coerced to `0` first (lines 112–113). -/
def one_rm_of_set (w_i : ℚ) (s : MSet) : Option ℚ :=
  let w := s.weight.getD 0
  let r := s.reps.getD 0
  if 0 < w ∧ 0 < r then epley3_record (some w) (some r) (some w_i) else none

/-- Per-set mutation of `enrich_workouts_with_1rm` (`main.py` lines
111–120): stores the computed 1RM, explicitly stores `None` when weight or
reps is non-positive, and leaves the key untouched if `epley3_record`
returned `None` (unreachable for non-`None` arguments). -/
def enrich_set_with_1rm (w_i : ℚ) (s : MSet) : MSet :=
  let w := s.weight.getD 0
  let r := s.reps.getD 0
  if 0 < w ∧ 0 < r then
    match epley3_record (some w) (some r) (some w_i) with
    | some orm => { s with one_rep_max := some orm }
    | none => s
  else { s with one_rep_max := none }

/-- Per-exercise body of `enrich_workouts_with_1rm` (`main.py` lines
108–121): enriches each set and stores `max(one_rms)` (or `None` when no
set produced an estimate); `exercise.get("internal_load", 0.0)` defaults a
missing internal load to `0`. -/
def enrich_ex_with_1rm (ex : MEx) : MEx :=
  let w_i := ex.internal_load.getD 0
  { ex with
    sets := ex.sets.map (enrich_set_with_1rm w_i)
    one_rep_max := (ex.sets.filterMap (one_rm_of_set w_i)).max? }

/-- Embeds `enrich_workouts_with_1rm` (`main.py` lines 105–122). -/
def enrich_workouts_with_1rm (raw : List MWorkout) : List MWorkout :=
  raw.map fun w => { w with exercises := w.exercises.map enrich_ex_with_1rm }

/-- Per-set mutation of `enrich_workouts_with_rir` (`main.py` lines
133–144): on a positive (coerced) weight and reps, stores
`RIR = round(max_reps - r, 2)` and `max_reps` when `epley3_reps` produced a
value; otherwise stores `None` in both keys. -/
def enrich_set_with_rir (one_rm w_i : ℚ) (s : MSet) : MSet :=
  let w := s.weight.getD 0
  let r := s.reps.getD 0
  if 0 < w ∧ 0 < r then
    match epley3_reps (some w) (some one_rm) (some w_i) with
    | some mr => { s with rir := some (round2 (mr - r)), max_reps := some mr }
    | none => s
  else { s with rir := none, max_reps := none }

/-- Per-exercise body of `enrich_workouts_with_rir` (`main.py` lines
128–144): a missing exercise 1RM skips the exercise entirely (`continue`,
lines 131–132). -/
def enrich_ex_with_rir (ex : MEx) : MEx :=
  match ex.one_rep_max with
  | none => ex
  | some one_rm =>
    { ex with sets := ex.sets.map (enrich_set_with_rir one_rm (ex.internal_load.getD 0)) }

/-- Embeds `enrich_workouts_with_rir` (`main.py` lines 125–145). -/
def enrich_workouts_with_rir (raw : List MWorkout) : List MWorkout :=
  raw.map fun w => { w with exercises := w.exercises.map enrich_ex_with_rir }

/-- Per-exercise body of `enrich_workouts_with_volume` (`main.py` lines
151–162): one pass accumulating `total_volume` and `relative_volume`
(the latter only when `one_rm > 0`), then rounding to 2 and 3 decimals. -/
def enrich_ex_with_volume (ex : MEx) : MEx :=
  let one_rm := ex.one_rep_max.getD 0
  let acc := ex.sets.foldl
    (fun acc s =>
      let w := s.weight.getD 0
      let r := s.reps.getD 0
      (acc.1 + w * r, if 0 < one_rm then acc.2 + (w * r) / (one_rm * 0.8) else acc.2))
    ((0 : ℚ), (0 : ℚ))
  { ex with volume_raw := some (round2 acc.1), volume_relative := some (round3 acc.2) }

/-- Embeds `enrich_workouts_with_volume` (`main.py` lines 148–163). -/
def enrich_workouts_with_volume (raw : List MWorkout) : List MWorkout :=
  raw.map fun w => { w with exercises := w.exercises.map enrich_ex_with_volume }

/-- Per-exercise body of `enrich_workouts_with_heavy_volume` (`main.py`
lines 169–185): a missing or non-positive exercise 1RM yields heavy volume
`0`; otherwise each set contributes `2 * reps`, `reps` or `0` according to
the 93%/85% thresholds on its (coerced) weight. -/
def enrich_ex_with_heavy_volume (ex : MEx) : MEx :=
  let one_rm := ex.one_rep_max.getD 0
  let w_i := ex.internal_load.getD 0
  if one_rm ≤ 0 then { ex with volume_heavy := some 0 }
  else
    let t85 := 0.85 * (one_rm + w_i) - w_i
    let t93 := 0.93 * (one_rm + w_i) - w_i
    let pts := ex.sets.foldl
      (fun acc s =>
        let w := s.weight.getD 0
        let r := s.reps.getD 0
        if t93 < w then acc + 2 * r else if t85 < w then acc + r else acc)
      (0 : ℚ)
    { ex with volume_heavy := some pts }

/-- Embeds `enrich_workouts_with_heavy_volume` (`main.py` lines 166–186). -/
def enrich_workouts_with_heavy_volume (raw : List MWorkout) : List MWorkout :=
  raw.map fun w => { w with exercises := w.exercises.map enrich_ex_with_heavy_volume }

/-! ### The `main.py` flattener `create_workout_df` -/

/-- Month-number to `%b` abbreviation, as `strftime` renders it. -/
def month_abbrev (mm : String) : String :=
  if mm = "01" then "Jan" else if mm = "02" then "Feb" else if mm = "03" then "Mar"
  else if mm = "04" then "Apr" else if mm = "05" then "May" else if mm = "06" then "Jun"
  else if mm = "07" then "Jul" else if mm = "08" then "Aug" else if mm = "09" then "Sep"
  else if mm = "10" then "Oct" else if mm = "11" then "Nov" else if mm = "12" then "Dec"
  else ""

/-- Embeds `format_date` (`main.py` lines 44–45): reformats a valid
`YYYY-MM-DD` string as `%b-%d` (e.g. `Oct-02`). -/
def format_date (d : String) : String :=
  month_abbrev (String.mk ((d.data.drop 5).take 2)) ++ "-" ++ String.mk ((d.data.drop 8).take 2)

/-- One row appended by `create_workout_df` (`main.py` lines 199–205); the
source keys are `date`, `exercise`, `weight`, `Reps`, `1RM`. -/
structure DfRow where
  date : String
  exercise : String
  weight : Option ℚ
  reps : Option ℚ
  one_rm : Option ℚ
deriving DecidableEq

/-- Python truthiness of an optional number: `None` and `0` are falsy. -/
def truthy : Option ℚ → Bool
  | none => false
  | some v => v != 0

/-- The filter of `create_workout_df` (`main.py` line 198) and of
`fetch_workout_data` (`utils.py` line 78):
`not set_info.get("time") and not set_info.get("distance")`. -/
def is_strength_set (s : MSet) : Bool :=
  !truthy s.time && !truthy s.distance

/-- Rows contributed by one exercise in `create_workout_df`. -/
def df_rows_of_ex (date : String) (ex : MEx) : List DfRow :=
  (ex.sets.filter is_strength_set).map fun s =>
    ⟨date, ex.exercise_name, s.weight, s.reps, ex.one_rep_max⟩

/-- Rows contributed by one workout in `create_workout_df`. -/
def df_rows_of_workout (w : MWorkout) : List DfRow :=
  w.exercises.flatMap (df_rows_of_ex (format_date w.date))

/-- Embeds `create_workout_df` (`main.py` lines 192–206): flattens the
enriched workouts, keeping only sets whose `time` and `distance` are falsy,
with no placeholder rows for empty exercise or set lists. -/
def create_workout_df (all_workouts : List MWorkout) : List DfRow :=
  all_workouts.flatMap df_rows_of_workout

/-! ### Specification helpers (not from the source)

These definitions exist only to state claims: projections onto the
pre-existing (fetched) fields, and batch transforms that delete cardio sets,
used to phrase "such a set never appears in the output".
-/

/-- The pre-existing fields of a set, before any enrichment. -/
structure OrigSet where
  weight : Option ℚ
  reps : Option ℚ
  notes : Option String
  dropset : Bool
  percentile : Option ℚ
  time : Option ℚ
  distance : Option ℚ
deriving DecidableEq

/-- Projection of a set onto its pre-existing fields. -/
def MSet.orig (s : MSet) : OrigSet :=
  ⟨s.weight, s.reps, s.notes, s.dropset, s.percentile, s.time, s.distance⟩

/-- The pre-existing fields of an exercise. -/
structure OrigEx where
  exercise_name : String
  sets : List OrigSet
deriving DecidableEq

/-- Projection of an exercise onto its pre-existing fields. -/
def MEx.orig (ex : MEx) : OrigEx :=
  ⟨ex.exercise_name, ex.sets.map MSet.orig⟩

/-- The pre-existing fields of a workout. -/
structure OrigWorkout where
  date : String
  bodyweight : Option ℚ
  exercises : List OrigEx
deriving DecidableEq

/-- Projection of a workout onto its pre-existing fields. -/
def MWorkout.orig (w : MWorkout) : OrigWorkout :=
  ⟨w.date, w.bodyweight, w.exercises.map MEx.orig⟩

/-- Whether a set carries a non-null `time` or `distance` field. -/
def has_time_or_distance (s : MSet) : Bool :=
  s.time != none || s.distance != none

/-- Deletes from a batch every set with a non-null `time` or `distance`. -/
def drop_nonnull_cardio (ws : List MWorkout) : List MWorkout :=
  ws.map fun w =>
    { w with exercises := w.exercises.map fun ex =>
        { ex with sets := ex.sets.filter fun s => !has_time_or_distance s } }

/-- Deletes from a batch every set with a truthy `time` or `distance`. -/
def drop_truthy_cardio (ws : List MWorkout) : List MWorkout :=
  ws.map fun w =>
    { w with exercises := w.exercises.map fun ex =>
        { ex with sets := ex.sets.filter is_strength_set } }

/-! ## Claims -/

/-- Helper for C1: in the row pipeline, for a row with a positive reps count
and a known internal load `w_i`, the enriched `est_1RM` column equals
`((reps + 29) * 3.33 * (external_weight + w_i)) / 100 - w_i` with a missing
external weight treated as `0`, rounded to one decimal place. -/
theorem est_1rm_formula (r : PRow) (rep w_i : ℚ) (hrep : r.reps = some rep)
    (hpos : 0 < rep) (hwi : row_internal_weight r = some w_i) :
    row_est_1rm r = some (round1 (((rep + 29) * 3.33 * (r.weight.getD 0 + w_i)) / 100 - w_i)) := by
  simp only [row_est_1rm, est_1rm_epley3, hrep, hwi]
  rw [if_neg (not_le.mpr hpos)]
  norm_num

/-- C1 counterexample: `main.py`'s per-set 1RM enrichment (also cited by the
claim) stores `round(..., 2)` — at weight 10, reps 5, internal load 0 it
stores `11.32`, while the claimed one-decimal rounding of the same formula
is `11.3` — and a missing weight yields `None` there instead of being
treated as `0`. -/
theorem main_1rm_not_one_decimal :
    (enrich_set_with_1rm 0
      ⟨some 10, some 5, none, false, none, none, none, none, none, none⟩).one_rep_max =
      some 11.32 ∧
    round1 ((3.33 * (10 + 0) * (5 + 29)) / 100 - 0) = 11.3 ∧
    some (11.32 : ℚ) ≠ some (11.3 : ℚ) ∧
    (enrich_set_with_1rm 80
      ⟨none, some 8, none, false, none, none, none, none, none, none⟩).one_rep_max = none ∧
    (none : Option ℚ) ≠ some (round1 ((3.33 * (0 + 80) * (8 + 29)) / 100 - 80)) := by
  refine ⟨?_, ?_, ?_, ?_, by simp⟩
  · simp only [enrich_set_with_1rm, Option.getD_some]
    rw [if_pos (by norm_num)]
    simp only [epley3_record, epley3_record_core]
    norm_num [round2, roundTo, round_eq]
  · norm_num [round1, roundTo, round_eq]
  · simp only [ne_eq, Option.some.injEq]
    norm_num
  · simp [enrich_set_with_1rm]

/-- C1 (amended): the estimated-1RM formula, by variant.  In the dataframe
pipeline (`pure.py` / `crawler1.py`), for every set row with a positive reps
count and a known internal load `w_i`, the stored `est_1RM` equals
`((reps + 29) * 3.33 * (external_weight + w_i)) / 100 - w_i` with a missing
external weight treated as `0`, rounded to one decimal place.  In
`main.py`'s enrichment, for a set with positive weight and reps the stored
per-set `one_rep_max` equals the same formula rounded to two decimals, and a
missing weight or reps yields `None` (a missing weight is not treated as
`0` there). -/
theorem est_1rm_formula_by_variant :
    (∀ (r : PRow) (rep w_i : ℚ), r.reps = some rep → 0 < rep →
      row_internal_weight r = some w_i →
      row_est_1rm r =
        some (round1 (((rep + 29) * 3.33 * (r.weight.getD 0 + w_i)) / 100 - w_i))) ∧
    (∀ (w_i : ℚ) (s : MSet) (wv rep : ℚ), s.weight = some wv → 0 < wv →
      s.reps = some rep → 0 < rep →
      (enrich_set_with_1rm w_i s).one_rep_max =
        some (round2 ((3.33 * (wv + w_i) * (rep + 29)) / 100 - w_i))) ∧
    (∀ (w_i : ℚ) (s : MSet), s.weight = none ∨ s.reps = none →
      (enrich_set_with_1rm w_i s).one_rep_max = none) := by
  refine ⟨est_1rm_formula, ?_, ?_⟩
  · intro w_i s wv rep hw hwpos hr hrpos
    simp only [enrich_set_with_1rm, hw, hr, Option.getD_some]
    rw [if_pos ⟨hwpos, hrpos⟩]
    simp only [epley3_record, epley3_record_core]
  · intro w_i s h
    have hr : ¬ (0 < s.weight.getD 0 ∧ 0 < s.reps.getD 0) := by
      rcases h with h | h <;> simp [h]
    simp [enrich_set_with_1rm, if_neg hr]

/-- Witness for `est_1rm_formula_by_variant`: the spec's `Pull Ups` row at
bodyweight 80 with 8 reps and no external weight gives `18.6` in the row
pipeline; a `main.py` set at weight 10, reps 5, internal load 0 stores
`11.32`; and a `main.py` set with a missing weight stores `None`. -/
theorem est_1rm_formula_by_variant_witness :
    (⟨some "2024-03-01", some 80, "Pull Ups", none, some 8, none, none⟩ : PRow).reps = some 8 ∧
    (0 : ℚ) < 8 ∧
    row_internal_weight ⟨some "2024-03-01", some 80, "Pull Ups", none, some 8, none, none⟩ = some 80 ∧
    row_est_1rm ⟨some "2024-03-01", some 80, "Pull Ups", none, some 8, none, none⟩ = some 18.6 ∧
    (enrich_set_with_1rm 0
      ⟨some 10, some 5, none, false, none, none, none, none, none, none⟩).one_rep_max =
      some 11.32 ∧
    (enrich_set_with_1rm 7
      ⟨none, some 8, none, false, none, none, none, none, none, none⟩).one_rep_max = none := by
  have hwi : row_internal_weight ⟨some "2024-03-01", some 80, "Pull Ups", none, some 8, none, none⟩
      = some 80 := by
    have hbw : bw_pct_of "Pull Ups" = some 1.0 := rfl
    simp only [row_internal_weight, hbw]
    norm_num
  refine ⟨rfl, by norm_num, hwi, ?_, ?_, ?_⟩
  · have h := est_1rm_formula_by_variant.1
      ⟨some "2024-03-01", some 80, "Pull Ups", none, some 8, none, none⟩
      8 80 rfl (by norm_num) hwi
    rw [h]
    norm_num [round1, roundTo, round_eq]
  · have h := est_1rm_formula_by_variant.2.1 0
      ⟨some 10, some 5, none, false, none, none, none, none, none, none⟩
      10 5 rfl (by norm_num) rfl (by norm_num)
    rw [h]
    norm_num [round2, roundTo, round_eq]
  · exact est_1rm_formula_by_variant.2.2 7
      ⟨none, some 8, none, false, none, none, none, none, none, none⟩ (Or.inl rfl)

/-- C2 counterexample: at `reps = 1`, `weight = 0`, `internal_load = 0` the
forward predictor has a zero denominator and returns `None` (before any
rounding), so the round trip does not recover the original reps. -/
theorem epley3_round_trip_degenerate :
    epley3_reps_core 0 (epley3_record_core 0 1 0) 0 = none ∧
    epley3_reps_core 0 (epley3_record_core 0 1 0) 0 ≠ some 1 := by
  have h : epley3_reps_core 0 (epley3_record_core 0 1 0) 0 = none := by
    simp only [epley3_reps_core, epley3_record_core]
    norm_num
  exact ⟨h, by rw [h]; simp⟩

/-- C2 (amended): for `weight + internal_load > 0` (with both non-negative),
the 1RM estimate composed with the forward max-reps predictor recovers the
original reps exactly, before the stored rounding to 1/2 decimals. -/
theorem epley3_round_trip (reps w w_i : ℚ) (_hw : 0 ≤ w) (_hwi : 0 ≤ w_i)
    (hpos : 0 < w + w_i) :
    epley3_reps_core w (epley3_record_core w reps w_i) w_i = some reps := by
  have hden : (3.33 : ℚ) * (w + w_i) ≠ 0 := by positivity
  simp only [epley3_reps_core, epley3_record_core]
  rw [if_neg hden]
  congr 1
  field_simp
  ring

/-- Witness for `epley3_round_trip`: 5 reps at weight 100 with internal
load 0 round-trips exactly. -/
theorem epley3_round_trip_witness :
    (0 : ℚ) ≤ 100 ∧ (0 : ℚ) ≤ 0 ∧ (0 : ℚ) < 100 + 0 ∧
    epley3_reps_core 100 (epley3_record_core 100 5 0) 0 = some 5 :=
  ⟨by norm_num, le_refl 0, by norm_num,
    epley3_round_trip 5 100 0 (by norm_num) (le_refl 0) (by norm_num)⟩

/-- C3 counterexample: on fake pages of sizes `[200, 200, 73]`, the
`fetch_workout_data` loop of `utils.py` issues a 4th request (which returns
the empty page) instead of stopping after the short 73-record page, so the
run does not make exactly 3 requests. -/
theorem utils_requests_not_three :
    utils_requests 999
        [List.replicate 200 0, List.replicate 200 0, List.replicate 73 0] = 4 ∧
    (4 : ℕ) ≠ 3 := by
  constructor
  · rfl
  · decide

/-- Unfolding equation of `crawler1_requests` on a non-empty page list. -/
theorem crawler1_requests_cons (limit : ℕ) (d : List ℕ) (rest : List (List ℕ)) :
    crawler1_requests limit (d :: rest) =
      if d.isEmpty then 1
      else if d.length < limit then 1
      else 1 + crawler1_requests limit rest := rfl

/-- Helper: a run of full pages followed by an empty-or-short page makes the
`crawler1.py` loop issue exactly one request per page seen. -/
theorem crawler1_requests_full_then_short (limit : ℕ) (hl : 0 < limit)
    (pre : List (List ℕ)) (hpre : ∀ p ∈ pre, p.length = limit)
    (p : List ℕ) (hp : p = [] ∨ p.length < limit) (rest : List (List ℕ)) :
    crawler1_requests limit (pre ++ p :: rest) = pre.length + 1 := by
  induction pre with
  | nil =>
    have hlen : p.length < limit := by
      rcases hp with h | h
      · subst h; simpa using hl
      · exact h
    rw [List.nil_append, crawler1_requests_cons]
    by_cases he : p.isEmpty = true
    · rw [if_pos he]
      simp
    · rw [if_neg he, if_pos hlen]
      simp
  | cons q pre ih =>
    have hq : q.length = limit := hpre q (by simp)
    have hqne : ¬ (q.isEmpty = true) := by
      cases q with
      | nil => simp at hq; omega
      | cons a l => simp
    have hqlen : ¬ q.length < limit := by omega
    rw [List.cons_append, crawler1_requests_cons, if_neg hqne, if_neg hqlen,
      ih (fun p hp2 => hpre p (List.mem_cons_of_mem q hp2))]
    simp only [List.length_cons]
    omega

/-- C3 (amended): the `crawler1.py` pagination loop stops as soon as a page
returns zero records or strictly fewer than the requested page size — on
page sizes `[200, 200, 73]` it issues exactly 3 requests and on `[200, 0]`
exactly 2 — while `fetch_workout_data` in `utils.py` stops only on a
zero-record page and so issues a 4th request on `[200, 200, 73]`. -/
theorem pagination_termination :
    (∀ limit : ℕ, 0 < limit →
      ∀ pre : List (List ℕ), (∀ p ∈ pre, p.length = limit) →
        ∀ p : List ℕ, (p = [] ∨ p.length < limit) →
          ∀ rest : List (List ℕ),
            crawler1_requests limit (pre ++ p :: rest) = pre.length + 1) ∧
    crawler1_requests 200
        [List.replicate 200 0, List.replicate 200 0, List.replicate 73 0] = 3 ∧
    crawler1_requests 200 [List.replicate 200 0, []] = 2 ∧
    utils_requests 999
        [List.replicate 200 0, List.replicate 200 0, List.replicate 73 0] = 4 := by
  refine ⟨crawler1_requests_full_then_short, ?_, ?_, rfl⟩
  · exact crawler1_requests_full_then_short 200 (by norm_num)
      [List.replicate 200 0, List.replicate 200 0]
      (by intro p hp; simp only [List.mem_cons, List.not_mem_nil, or_false] at hp;
          rcases hp with h | h <;> rw [h, List.length_replicate])
      (List.replicate 73 0) (Or.inr (by rw [List.length_replicate]; norm_num)) []
  · exact crawler1_requests_full_then_short 200 (by norm_num)
      [List.replicate 200 0]
      (by intro p hp; simp only [List.mem_cons, List.not_mem_nil, or_false] at hp;
          rw [hp, List.length_replicate])
      [] (Or.inl rfl) []

/-- Witness for `pagination_termination`: its universally quantified part
applied to one full 200-record page followed by a 73-record page. -/
theorem pagination_termination_witness :
    (0 : ℕ) < 200 ∧
    crawler1_requests 200 [List.replicate 200 0, List.replicate 73 0] = 2 := by
  refine ⟨by norm_num, ?_⟩
  exact pagination_termination.1 200 (by norm_num) [List.replicate 200 0]
    (by intro p hp; simp only [List.mem_cons, List.not_mem_nil, or_false] at hp;
        rw [hp, List.length_replicate])
    (List.replicate 73 0) (Or.inr (by rw [List.length_replicate]; norm_num)) []

/-- C4 counterexample: with page 1 succeeding with 200 records and page 2
failing, `fetch_workout_data` in `utils.py` propagates the exception
(discarding the accumulated page) instead of returning the 200 records. -/
theorem utils_fetch_error_discards :
    utils_fetch 999 [Except.ok (List.replicate 200 0), Except.error ()] =
      Except.error () ∧
    utils_fetch 999 [Except.ok (List.replicate 200 0), Except.error ()] ≠
      Except.ok (List.replicate 200 0) := by
  have h : utils_fetch 999 [Except.ok (List.replicate 200 0), Except.error ()] =
      Except.error () := rfl
  exact ⟨h, by rw [h]; simp⟩

/-- Unfolding equation of `crawler1_fetch_aux` on a successful page. -/
theorem crawler1_fetch_aux_ok (limit : ℕ) (acc d : List ℕ)
    (rest : List (PageResp ℕ)) :
    crawler1_fetch_aux limit acc (Except.ok d :: rest) =
      if d.isEmpty then acc
      else if d.length < limit then acc ++ d
      else crawler1_fetch_aux limit (acc ++ d) rest := rfl

/-- Helper: the `crawler1.py` loop keeps its accumulator when it hits a
failing page after a run of full pages. -/
theorem crawler1_fetch_aux_full_then_error (limit : ℕ) (hl : 0 < limit)
    (good : List (List ℕ)) (hg : ∀ p ∈ good, p.length = limit)
    (rest : List (PageResp ℕ)) (acc : List ℕ) :
    crawler1_fetch_aux limit acc (good.map Except.ok ++ Except.error () :: rest) =
      acc ++ good.flatten := by
  induction good generalizing acc with
  | nil => simp [crawler1_fetch_aux]
  | cons d good ih =>
    have hd : d.length = limit := hg d (by simp)
    have hdne : ¬ (d.isEmpty = true) := by
      cases d with
      | nil => simp at hd; omega
      | cons a l => simp
    have hdlen : ¬ d.length < limit := by omega
    rw [List.map_cons, List.cons_append, crawler1_fetch_aux_ok, if_neg hdne,
      if_neg hdlen, ih (fun p hp => hg p (List.mem_cons_of_mem d hp))]
    simp [List.append_assoc]

/-- C4 (amended): when a page request fails after a run of earlier full
pages, the `crawler1.py` pagination loop returns every record accumulated
from the earlier pages without raising (the failure only ends the loop);
`fetch_workout_data` in `utils.py` instead lets the exception escape,
discarding the accumulated records (see `utils_fetch_error_discards`). -/
theorem crawler1_partial_fetch (limit : ℕ) (hl : 0 < limit)
    (good : List (List ℕ)) (hg : ∀ p ∈ good, p.length = limit)
    (rest : List (PageResp ℕ)) :
    crawler1_fetch limit (good.map Except.ok ++ Except.error () :: rest) =
      good.flatten := by
  have h := crawler1_fetch_aux_full_then_error limit hl good hg rest []
  rw [List.nil_append] at h
  exact h

/-- Witness for `crawler1_partial_fetch`: one successful 200-record page
followed by a failing page yields exactly those 200 records. -/
theorem crawler1_partial_fetch_witness :
    (0 : ℕ) < 200 ∧
    crawler1_fetch 200 [Except.ok (List.replicate 200 0), Except.error ()] =
      List.replicate 200 0 := by
  refine ⟨by norm_num, ?_⟩
  have h := crawler1_partial_fetch 200 (by norm_num) [List.replicate 200 0]
    (by intro p hp; simp only [List.mem_cons, List.not_mem_nil, or_false] at hp;
        rw [hp, List.length_replicate]) []
  have h2 : ([List.replicate 200 0] : List (List ℕ)).flatten = List.replicate 200 0 := by
    rw [List.flatten_cons, List.flatten_nil, List.append_nil]
  rw [h2] at h
  exact h

/-- C5 counterexample: a `Push Ups` row (bodyweight 70, 5 reps) whose
`weight` is missing gets the numeric estimate `9.3`, not the missing-value
marker; and in `main.py` the null-fraction exercise `Hanging Knee Raise` is
coerced to fraction `0` and its set (weight 10, reps 5) gets the numeric
per-set 1RM `11.32`, not the missing marker. -/
theorem missing_weight_not_missing_est :
    row_est_1rm ⟨some "2024-03-05", some 70, "Push Ups", none, some 5, none, none⟩ =
      some 9.3 ∧
    (some (9.3 : ℚ) ≠ (none : Option ℚ)) ∧
    (enrich_ex_with_1rm (enrich_ex_with_bw_load 70
        { exercise_name := "Hanging Knee Raise"
          sets := [{ weight := some 10, reps := some 5, notes := none, dropset := false,
                     percentile := none, time := none, distance := none }] })).one_rep_max =
      some 11.32 ∧
    (some (11.32 : ℚ) ≠ (none : Option ℚ)) := by
  refine ⟨?_, by simp, ?_, by simp⟩
  · have hbw : bw_pct_of "Push Ups" = some 1.0 := rfl
    simp only [row_est_1rm, row_internal_weight, hbw, est_1rm_epley3]
    norm_num [round1, roundTo, round_eq]
  · have hdata : exercise_data_get "Hanging Knee Raise" = ⟨none, 0⟩ := rfl
    simp only [enrich_ex_with_bw_load, hdata, enrich_ex_with_1rm, Option.getD_some,
      Option.getD_none, List.filterMap, one_rm_of_set, enrich_set_with_1rm,
      epley3_record, epley3_record_core]
    norm_num [round2, roundTo, round_eq, List.max?]

/-- C5 (amended): the derived metrics tolerate missing inputs without
raising, as follows.  In the dataframe pipeline (`pure.py` / `crawler1.py`),
`est_1RM` is the missing marker whenever `reps` is missing or the internal
weight is missing (unmapped exercise name, null fraction, or missing
bodyweight all make the internal weight missing) — though a missing `weight`
alone is treated as `0` and still yields a numeric estimate.  In `main.py`,
a set with missing `reps` or `weight` gets `None` for its per-set 1RM and
for `RIR` — though a null fraction or missing bodyweight is coerced to `0`
there rather than propagated. -/
theorem missing_inputs_propagate :
    (∀ r : PRow, r.reps = none ∨ row_internal_weight r = none → row_est_1rm r = none) ∧
    (∀ (r : PRow), r.bodyweight = none ∨ bw_pct_of r.exercise = none →
      row_internal_weight r = none) ∧
    (∀ (w_i : ℚ) (s : MSet), s.reps = none ∨ s.weight = none →
      (enrich_set_with_1rm w_i s).one_rep_max = none) ∧
    (∀ (one_rm w_i : ℚ) (s : MSet), s.reps = none ∨ s.weight = none →
      (enrich_set_with_rir one_rm w_i s).rir = none) := by
  refine ⟨?_, ?_, ?_, ?_⟩
  · intro r h
    rcases h with h | h
    · simp [row_est_1rm, est_1rm_epley3, h]
    · rw [row_est_1rm, h]
      cases hr : r.reps with
      | none => simp [est_1rm_epley3]
      | some v =>
        simp only [est_1rm_epley3]
        split
        · simp
        · simp
  · intro r h
    rcases h with h | h <;> simp [row_internal_weight, h]
  · intro w_i s h
    have hr : ¬ (0 < s.weight.getD 0 ∧ 0 < s.reps.getD 0) := by
      rcases h with h | h <;> simp [h]
    simp [enrich_set_with_1rm, if_neg hr]
  · intro one_rm w_i s h
    have hr : ¬ (0 < s.weight.getD 0 ∧ 0 < s.reps.getD 0) := by
      rcases h with h | h <;> simp [h]
    simp [enrich_set_with_rir, if_neg hr]

/-- Witness for `missing_inputs_propagate`: a row with missing reps, a row
whose exercise is unmapped, and a `main.py` set with missing weight. -/
theorem missing_inputs_propagate_witness :
    row_est_1rm ⟨none, some 70, "Bench Press", some 60, none, none, none⟩ = none ∧
    row_internal_weight ⟨none, some 70, "No Such Exercise", some 60, some 5, none, none⟩ = none ∧
    (enrich_set_with_1rm 0
      ⟨none, some 5, none, false, none, none, none, none, none, none⟩).one_rep_max = none ∧
    (enrich_set_with_rir 100 0
      ⟨none, some 5, none, false, none, none, none, none, none, none⟩).rir = none :=
  ⟨missing_inputs_propagate.1 _ (Or.inl rfl),
    missing_inputs_propagate.2.1 _ (Or.inr rfl),
    missing_inputs_propagate.2.2.1 0 _ (Or.inr rfl),
    missing_inputs_propagate.2.2.2 100 0 _ (Or.inr rfl)⟩

/-- Helper: the strength-set filter is idempotent. -/
theorem filter_strength_idem (l : List MSet) :
    (l.filter is_strength_set).filter is_strength_set = l.filter is_strength_set := by
  induction l with
  | nil => rfl
  | cons s l ih =>
    by_cases h : is_strength_set s
    · simp [List.filter_cons, h, ih]
    · simp [List.filter_cons, h, ih]

/-- Helper: deleting the truthy-cardio sets of an exercise does not change
its contribution to `create_workout_df`. -/
theorem df_rows_of_ex_drop (d : String) (ex : MEx) :
    df_rows_of_ex d { ex with sets := ex.sets.filter is_strength_set } =
      df_rows_of_ex d ex := by
  simp only [df_rows_of_ex, filter_strength_idem]

/-- Helper: deleting the truthy-cardio sets of a workout does not change its
contribution to `create_workout_df`. -/
theorem df_rows_of_workout_drop (w : MWorkout) :
    df_rows_of_workout
      { w with exercises := w.exercises.map fun ex =>
          { ex with sets := ex.sets.filter is_strength_set } } =
      df_rows_of_workout w := by
  simp only [df_rows_of_workout]
  induction w.exercises with
  | nil => rfl
  | cons ex exs ih =>
    simp only [List.map_cons, List.flatMap_cons, ih, df_rows_of_ex_drop]

/-- C6 counterexample: a batch whose only set carries the non-null value
`time = 0` produces one flattened row — Python truthiness treats `0` like an
absent field — so deleting the sets with non-null `time`/`distance` changes
the output. -/
theorem zero_time_set_appears :
    (create_workout_df [⟨"2024-03-01", some 70,
        [⟨"Plank", [⟨some 0, some 30, none, false, none, some 0, none, none, none, none⟩],
          none, none, none, none, none, none, none, none⟩]⟩]).length = 1 ∧
    create_workout_df (drop_nonnull_cardio [⟨"2024-03-01", some 70,
        [⟨"Plank", [⟨some 0, some 30, none, false, none, some 0, none, none, none, none⟩],
          none, none, none, none, none, none, none, none⟩]⟩]) = [] := by
  constructor
  · simp [create_workout_df, df_rows_of_workout, df_rows_of_ex, is_strength_set, truthy,
      List.filter]
  · simp [create_workout_df, drop_nonnull_cardio, has_time_or_distance,
      df_rows_of_workout, df_rows_of_ex, List.filter]

/-- C6 (amended): no set with a truthy (non-null and non-zero) `time` or
`distance` ever appears in the flattened strength table: deleting all such
sets from the input batch leaves `create_workout_df` unchanged.  (A set
whose `time` or `distance` is present but `0` is treated as a strength set
and does appear.) -/
theorem cardio_sets_never_appear (ws : List MWorkout) :
    create_workout_df (drop_truthy_cardio ws) = create_workout_df ws := by
  simp only [create_workout_df, drop_truthy_cardio]
  induction ws with
  | nil => rfl
  | cons w ws ih =>
    simp only [List.map_cons, List.flatMap_cons, ih, df_rows_of_workout_drop]

/-- C7 counterexample: `flatten_workouts` (`pure.py`) emits zero rows — not
one placeholder row — for a workout whose exercise list is empty, and
`create_workout_df` (`main.py`) does the same. -/
theorem flatten_drops_empty_workout :
    flatten_workouts ⟨[⟨some "2024-03-01", some 80, []⟩]⟩ = [] ∧
    (0 : ℕ) ≠ 1 ∧
    create_workout_df [⟨"2024-03-01", some 80, []⟩] = [] := by
  refine ⟨?_, by decide, ?_⟩
  · simp [flatten_workouts, flatten_rows_of_workout]
  · simp [create_workout_df, df_rows_of_workout]

/-- C7 (amended): only the `crawler1.py` row-building loop emits the
placeholder rows — exactly one per exercise-less workout and one per
set-less exercise; the flatteners `flatten_workouts` (`pure.py`) and
`create_workout_df` (`main.py`) emit no row at all for them. -/
theorem placeholder_rows :
    (∀ w : CWorkout, w.exercises = [] →
      crawler1_rows_of_workout w = [crow_empty_workout w]) ∧
    (∀ (w : CWorkout) (ex : CEx), ex.sets = [] →
      crawler1_rows_of_ex w ex = [crow_empty_sets w ex.exercise_name]) ∧
    (∀ w : PWorkout, w.exercises = [] → flatten_rows_of_workout w = []) ∧
    (∀ (w : PWorkout) (ex : PEx), ex.sets = [] → flatten_rows_of_ex w ex = []) ∧
    (∀ w : MWorkout, w.exercises = [] → df_rows_of_workout w = []) ∧
    (∀ (d : String) (ex : MEx), ex.sets = [] → df_rows_of_ex d ex = []) := by
  refine ⟨?_, ?_, ?_, ?_, ?_, ?_⟩
  · intro w h
    simp [crawler1_rows_of_workout, h]
  · intro w ex h
    simp [crawler1_rows_of_ex, h]
  · intro w h
    simp [flatten_rows_of_workout, h]
  · intro w ex h
    simp [flatten_rows_of_ex, h]
  · intro w h
    simp [df_rows_of_workout, h]
  · intro d ex h
    simp [df_rows_of_ex, h]

/-- Witness for `placeholder_rows`: a concrete exercise-less workout and a
concrete set-less exercise in each representation. -/
theorem placeholder_rows_witness :
    crawler1_rows_of_workout ⟨some 7, some "2024-03-01", some 80, []⟩ =
      [⟨some 7, some "2024-03-01", some 80, "", none, none, some "", false, none⟩] ∧
    crawler1_rows_of_ex ⟨some 7, some "2024-03-01", some 80, []⟩ ⟨"Squat", []⟩ =
      [⟨some 7, some "2024-03-01", some 80, "Squat", none, none, some "", false, none⟩] ∧
    flatten_rows_of_workout ⟨some "2024-03-01", some 80, []⟩ = [] ∧
    flatten_rows_of_ex ⟨some "2024-03-01", some 80, []⟩ ⟨"Squat", []⟩ = [] ∧
    df_rows_of_workout ⟨"2024-03-01", some 80, []⟩ = [] ∧
    df_rows_of_ex "Mar-01" ⟨"Squat", [], none, none, none, none, none, none, none, none⟩ = [] :=
  ⟨placeholder_rows.1 _ rfl,
    placeholder_rows.2.1 _ _ rfl,
    placeholder_rows.2.2.1 _ rfl,
    placeholder_rows.2.2.2.1 _ _ rfl,
    placeholder_rows.2.2.2.2.1 _ rfl,
    placeholder_rows.2.2.2.2.2 _ _ rfl⟩

/-- C8 counterexample: `main.py`'s reference lookup only trims — it does not
lowercase — so the fully-normalised spelling of `Pull Ups` falls back to the
default entry instead of resolving to the `Pull Ups` entry. -/
theorem main_lookup_not_lowercased :
    exercise_data_get "Pull Ups" = ⟨some 1.0, 0⟩ ∧
    exercise_data_get (norm "Pull Ups") = ⟨some 0, 0⟩ ∧
    exercise_data_get (norm "Pull Ups") ≠ exercise_data_get "Pull Ups" := by
  refine ⟨rfl, rfl, ?_⟩
  rw [show exercise_data_get (norm "Pull Ups") = ⟨some 0, 0⟩ from rfl,
    show exercise_data_get "Pull Ups" = ⟨some 1.0, 0⟩ from rfl]
  simp only [ne_eq, ExData.mk.injEq, Option.some.injEq, not_and]
  intro h
  norm_num at h

/-- C8 (amended): the `_BW_KEYMAP` lookup of `crawler1.py`/`pure.py`
normalises names by trimming and lowercasing, so any two spellings with the
same normal form — in particular `"bench press"`, `"Bench Press"` and
`"BENCH PRESS "` — resolve to the same reference entry; `main.py`'s
`EXERCISE_DATA` lookup only trims, with case variants falling back to the
default `{bwp: 0, eq_w: 0}` entry. -/
theorem name_normalisation :
    (∀ s t : String, norm s = norm t → bw_keymap_get s = bw_keymap_get t) ∧
    bw_keymap_get "bench press" = some (some 0.0) ∧
    bw_keymap_get "Bench Press" = some (some 0.0) ∧
    bw_keymap_get "BENCH PRESS " = some (some 0.0) ∧
    exercise_data_get "Bench Press" = ⟨some 0.0, 0⟩ ∧
    exercise_data_get "BENCH PRESS " = ⟨some 0, 0⟩ := by
  refine ⟨?_, rfl, rfl, rfl, rfl, rfl⟩
  intro s t h
  simp only [bw_keymap_get, h]

/-- Witness for `name_normalisation`: the two extreme spellings of the bench
press normalise identically and therefore resolve identically. -/
theorem name_normalisation_witness :
    norm "BENCH PRESS " = norm "bench press" ∧
    bw_keymap_get "BENCH PRESS " = bw_keymap_get "bench press" :=
  ⟨rfl, name_normalisation.1 "BENCH PRESS " "bench press" rfl⟩

/-- Helper: a left fold that only adds per-element contributions is the sum
of the mapped list. -/
theorem foldl_add_map (f : MSet → ℚ) (l : List MSet) (a : ℚ) :
    l.foldl (fun acc s => acc + f s) a = a + (l.map f).sum := by
  induction l generalizing a with
  | nil => simp
  | cons s l ih => simp [ih, add_assoc]

/-- C9: for an exercise with known positive best 1RM `m` and known internal
load `w_i`, heavy volume is the sum over its sets of `2 * reps` above the
93% threshold `0.93*(m+w_i) - w_i`, of `reps` above the 85% threshold but
not the 93% one, and `0` otherwise; and for an unknown or non-positive 1RM
it is exactly `0`, not the missing marker. -/
theorem heavy_volume_spec :
    (∀ (ex : MEx) (m w_i : ℚ), ex.one_rep_max = some m → 0 < m →
      ex.internal_load = some w_i →
      (enrich_ex_with_heavy_volume ex).volume_heavy = some
        ((ex.sets.map fun s =>
            if 0.93 * (m + w_i) - w_i < s.weight.getD 0 then 2 * s.reps.getD 0
            else if 0.85 * (m + w_i) - w_i < s.weight.getD 0 then s.reps.getD 0
            else 0).sum)) ∧
    (∀ ex : MEx, ex.one_rep_max.getD 0 ≤ 0 →
      (enrich_ex_with_heavy_volume ex).volume_heavy = some 0) := by
  constructor
  · intro ex m w_i h1 hm h2
    simp only [enrich_ex_with_heavy_volume, h1, h2, Option.getD_some]
    rw [if_neg (not_le.mpr hm)]
    have hbody : (fun (acc : ℚ) (s : MSet) =>
        if 0.93 * (m + w_i) - w_i < s.weight.getD 0 then acc + 2 * s.reps.getD 0
        else if 0.85 * (m + w_i) - w_i < s.weight.getD 0 then acc + s.reps.getD 0
        else acc) =
        fun acc s => acc +
          (if 0.93 * (m + w_i) - w_i < s.weight.getD 0 then 2 * s.reps.getD 0
           else if 0.85 * (m + w_i) - w_i < s.weight.getD 0 then s.reps.getD 0
           else 0) := by
      funext acc s
      by_cases h93 : 0.93 * (m + w_i) - w_i < s.weight.getD 0
      · simp [h93]
      · by_cases h85 : 0.85 * (m + w_i) - w_i < s.weight.getD 0
        · simp [h93, h85]
        · simp [h93, h85]
    show some _ = some _
    rw [hbody, foldl_add_map]
    rw [zero_add]
  · intro ex h
    simp only [enrich_ex_with_heavy_volume]
    rw [if_pos h]

/-- Witness for `heavy_volume_spec`: an exercise with 1RM 100 and internal
load 0 whose sets (95×3, 90×5, 50×10) score `2*3 + 5 + 0 = 11`; and an
exercise with unknown 1RM scoring `0`. -/
theorem heavy_volume_spec_witness :
    (⟨"Bench Press", [⟨some 95, some 3, none, false, none, none, none, none, none, none⟩,
        ⟨some 90, some 5, none, false, none, none, none, none, none, none⟩,
        ⟨some 50, some 10, none, false, none, none, none, none, none, none⟩],
      none, none, none, some 0, some 100, none, none, none⟩ : MEx).one_rep_max = some 100 ∧
    (0 : ℚ) < 100 ∧
    (enrich_ex_with_heavy_volume
      ⟨"Bench Press", [⟨some 95, some 3, none, false, none, none, none, none, none, none⟩,
          ⟨some 90, some 5, none, false, none, none, none, none, none, none⟩,
          ⟨some 50, some 10, none, false, none, none, none, none, none, none⟩],
        none, none, none, some 0, some 100, none, none, none⟩).volume_heavy = some 11 ∧
    (enrich_ex_with_heavy_volume
      ⟨"Squat", [⟨some 50, some 10, none, false, none, none, none, none, none, none⟩],
        none, none, none, some 0, none, none, none, none⟩).volume_heavy = some 0 := by
  refine ⟨rfl, by norm_num, ?_, ?_⟩
  · have h := heavy_volume_spec.1
      ⟨"Bench Press", [⟨some 95, some 3, none, false, none, none, none, none, none, none⟩,
          ⟨some 90, some 5, none, false, none, none, none, none, none, none⟩,
          ⟨some 50, some 10, none, false, none, none, none, none, none, none⟩],
        none, none, none, some 0, some 100, none, none, none⟩
      100 0 rfl (by norm_num) rfl
    rw [h]
    simp only [List.map_cons, List.map_nil, Option.getD_some]
    rw [if_pos (by norm_num), if_neg (by norm_num), if_pos (by norm_num),
      if_neg (by norm_num), if_neg (by norm_num)]
    norm_num
  · exact heavy_volume_spec.2 _ (by simp)

/-! ### C10 helpers: each enrichment stage touches only derived fields -/

/-- Helper: the 1RM stage leaves a set's pre-existing fields unchanged. -/
theorem orig_enrich_set_1rm (w_i : ℚ) (s : MSet) :
    (enrich_set_with_1rm w_i s).orig = s.orig := by
  simp only [enrich_set_with_1rm]
  split <;> rfl

/-- Helper: the RIR stage leaves a set's pre-existing fields unchanged. -/
theorem orig_enrich_set_rir (one_rm w_i : ℚ) (s : MSet) :
    (enrich_set_with_rir one_rm w_i s).orig = s.orig := by
  simp only [enrich_set_with_rir]
  split
  · split <;> rfl
  · rfl

/-- Helper: the bodyweight-load stage leaves an exercise's pre-existing
fields unchanged. -/
theorem orig_enrich_ex_bw (b : ℚ) (ex : MEx) :
    (enrich_ex_with_bw_load b ex).orig = ex.orig := rfl

/-- Helper: the 1RM stage leaves an exercise's pre-existing fields
unchanged. -/
theorem orig_enrich_ex_1rm (ex : MEx) :
    (enrich_ex_with_1rm ex).orig = ex.orig := by
  simp only [enrich_ex_with_1rm, MEx.orig, List.map_map]
  congr 1
  exact List.map_congr_left fun s _ => orig_enrich_set_1rm _ s

/-- Helper: the RIR stage leaves an exercise's pre-existing fields
unchanged. -/
theorem orig_enrich_ex_rir (ex : MEx) :
    (enrich_ex_with_rir ex).orig = ex.orig := by
  simp only [enrich_ex_with_rir]
  split
  · rfl
  · simp only [MEx.orig, List.map_map]
    congr 1
    exact List.map_congr_left fun s _ => orig_enrich_set_rir _ _ s

/-- Helper: the volume stage leaves an exercise's pre-existing fields
unchanged. -/
theorem orig_enrich_ex_volume (ex : MEx) :
    (enrich_ex_with_volume ex).orig = ex.orig := rfl

/-- Helper: the heavy-volume stage leaves an exercise's pre-existing fields
unchanged. -/
theorem orig_enrich_ex_heavy (ex : MEx) :
    (enrich_ex_with_heavy_volume ex).orig = ex.orig := by
  simp only [enrich_ex_with_heavy_volume]
  split <;> rfl

/-- Helper: mapping a per-exercise function that preserves pre-existing
fields over a workout's exercises preserves the workout's pre-existing
fields. -/
theorem orig_map_exercises (g : MEx → MEx) (hg : ∀ ex, (g ex).orig = ex.orig)
    (w : MWorkout) :
    MWorkout.orig { w with exercises := w.exercises.map g } = w.orig := by
  simp only [MWorkout.orig, List.map_map]
  congr 1
  exact List.map_congr_left fun ex _ => hg ex

/-- C10: every enrichment stage returns the batch with only derived keys
added — the projection of each workout onto its pre-existing fields (date,
bodyweight, exercise names, and each set's weight, reps, notes, dropset,
percentile, time, distance), including the number and order of workouts,
exercises and sets, is unchanged by all five stages. -/
theorem enrich_stages_preserve_originals (ws : List MWorkout) :
    (enrich_workouts_with_bodyweight_load ws).map MWorkout.orig = ws.map MWorkout.orig ∧
    (enrich_workouts_with_1rm ws).map MWorkout.orig = ws.map MWorkout.orig ∧
    (enrich_workouts_with_rir ws).map MWorkout.orig = ws.map MWorkout.orig ∧
    (enrich_workouts_with_volume ws).map MWorkout.orig = ws.map MWorkout.orig ∧
    (enrich_workouts_with_heavy_volume ws).map MWorkout.orig = ws.map MWorkout.orig := by
  refine ⟨?_, ?_, ?_, ?_, ?_⟩
  · simp only [enrich_workouts_with_bodyweight_load, List.map_map]
    congr 1
    funext w
    exact orig_map_exercises _ (orig_enrich_ex_bw _) w
  · simp only [enrich_workouts_with_1rm, List.map_map]
    congr 1
    funext w
    exact orig_map_exercises _ orig_enrich_ex_1rm w
  · simp only [enrich_workouts_with_rir, List.map_map]
    congr 1
    funext w
    exact orig_map_exercises _ orig_enrich_ex_rir w
  · simp only [enrich_workouts_with_volume, List.map_map]
    congr 1
    funext w
    exact orig_map_exercises _ orig_enrich_ex_volume w
  · simp only [enrich_workouts_with_heavy_volume, List.map_map]
    congr 1
    funext w
    exact orig_map_exercises _ orig_enrich_ex_heavy w

end Monty
